import Mathlib

/-!
Verification of the WebSocket connector crates `taos-ws` and `taos-ws-sys`:
descriptor (DSN) resolution, endpoint-URL derivation, the session-open
handshake request, the FFI result-set wrapper with its error-capturing
accessors, dual-layout column metadata, bounds-checked cell access, and
RFC-3339 timestamp rendering into a caller-supplied buffer.

Types that the crates import from sibling crates of the same repository
(`taos_query::Dsn`, `Field`, `Ty`, `Precision`, `Block`, and the transport
result set from `taos_ws::sync`) are modelled from the specification's
transport-capability contract; everything else is translated directly from
`taos-ws/src/lib.rs` and `taos-ws-sys/src/lib.rs`.
-/

namespace Taos

/-- Modelled from the spec: the column type tag (`taos_query::common::Ty`,
not under src/), a small unsigned enumeration with `Null` as tag 0. -/
inductive Ty where
  | null
  | bool
  | tinyInt
  | smallInt
  | int
  | bigInt
  | float
  | double
  | varChar
  | timestamp
  | nchar
  | utinyInt
  | usmallInt
  | uint
  | ubigInt
  | json
deriving DecidableEq, Repr

/-- Modelled from the spec: the numeric value of a type tag (`Ty as u8`). -/
def Ty.toU8 : Ty → Nat
  | .null => 0
  | .bool => 1
  | .tinyInt => 2
  | .smallInt => 3
  | .int => 4
  | .bigInt => 5
  | .float => 6
  | .double => 7
  | .varChar => 8
  | .timestamp => 9
  | .nchar => 10
  | .utinyInt => 11
  | .usmallInt => 12
  | .uint => 13
  | .ubigInt => 14
  | .json => 15

/-- Modelled from the spec: the time precision of a result set
(`taos_query::common::Precision`, not under src/):
millisecond / microsecond / nanosecond. -/
inductive Precision where
  | millisecond
  | microsecond
  | nanosecond
deriving DecidableEq, Repr

/-- Modelled from the spec: `Precision::from_u8` (not under src/), decoding
the C-level precision integer: 0 = millisecond, 1 = microsecond,
otherwise nanosecond. -/
def Precision.fromU8 (n : Nat) : Precision :=
  match n with
  | 0 => .millisecond
  | 1 => .microsecond
  | _ => .nanosecond

/-- Modelled from the spec: a parsed connection descriptor
(`taos_query::Dsn`, not under src/): driver token, optional sub-protocol
token, optional username/password, ordered address list, parameter map,
optional default database. -/
structure Dsn where
  driver : String
  protocol : Option String
  username : Option String
  password : Option String
  addresses : List String
  params : List (String × String)
  database : Option String
deriving DecidableEq, Repr

/-- Modelled from the spec: the canonical string form of a descriptor
(`taos_query::Dsn::to_string`, not under src/):
`driver[+protocol]://[user[:pass]@]addr,...[/db][?k=v&...]`. -/
def Dsn.toStr (d : Dsn) : String :=
  d.driver
    ++ (match d.protocol with | some p => "+" ++ p | none => "")
    ++ "://"
    ++ (match d.username with
        | some u =>
          u ++ (match d.password with | some pw => ":" ++ pw | none => "") ++ "@"
        | none => "")
    ++ String.intercalate "," d.addresses
    ++ (match d.database with | some db => "/" ++ db | none => "")
    ++ (match d.params with
        | [] => ""
        | ps => "?" ++ String.intercalate "&" (ps.map (fun kv => kv.1 ++ "=" ++ kv.2)))

/-- Modelled from the spec: parameter-map lookup used by
`dsn.params.remove("token")` (a `BTreeMap::remove`, whose returned value is
the entry for the key; the map itself is not used afterwards). -/
def paramGet (ps : List (String × String)) (k : String) : Option String :=
  (ps.find? (fun kv => kv.1 == k)).map (·.2)

/-- `taos_query::DsnError` as used by `WsInfo::from_dsn`: the
`InvalidDriver` variant carries the offending descriptor's canonical
string form. -/
inductive DsnError where
  | invalidDriver (dsn : String)
deriving DecidableEq, Repr

/-- `taos_ws::WsAuth`: token mode or plain username/password mode. -/
inductive WsAuth where
  | token (t : String)
  | plain (user pass : String)
deriving DecidableEq, Repr

/-- `taos_ws::WsInfo`: resolved connection info. -/
structure WsInfo where
  scheme : String
  addr : String
  auth : WsAuth
  database : Option String
deriving DecidableEq, Repr

/-- Scheme-derivation `match` inside `WsInfo::from_dsn`
(taos-ws/src/lib.rs lines 41-50), written as the equivalent guard chain in
the source's order. -/
def deriveScheme (dsn : Dsn) : Except DsnError String :=
  if dsn.driver = "ws" ∨ dsn.driver = "http" then .ok "ws"
  else if dsn.driver = "wss" ∨ dsn.driver = "https" then .ok "wss"
  else if dsn.driver = "taos" ∧ (dsn.protocol = some "ws" ∨ dsn.protocol = some "http") then
    .ok "ws"
  else if dsn.driver = "taos" ∧ (dsn.protocol = some "wss" ∨ dsn.protocol = some "https") then
    .ok "wss"
  else .error (.invalidDriver dsn.toStr)

/-- `WsInfo::from_dsn` (taos-ws/src/lib.rs lines 39-75), over an
already-parsed descriptor. -/
def WsInfo.fromDsn (dsn : Dsn) : Except DsnError WsInfo := do
  let scheme ← deriveScheme dsn
  let token := paramGet dsn.params "token"
  let addr :=
    match dsn.addresses.head? with
    | some a => a
    | none => "localhost:6041"
  match token with
  | some t =>
    .ok { scheme := scheme, addr := addr, auth := .token t, database := dsn.database }
  | none =>
    .ok { scheme := scheme, addr := addr,
          auth := .plain (dsn.username.getD "root") (dsn.password.getD "taosdata"),
          database := dsn.database }

/-- `WsInfo::to_query_url` (taos-ws/src/lib.rs lines 76-83). -/
def WsInfo.toQueryUrl (i : WsInfo) : String :=
  match i.auth with
  | .token t => i.scheme ++ "://" ++ i.addr ++ "/rest/ws?token=" ++ t
  | .plain _ _ => i.scheme ++ "://" ++ i.addr ++ "/rest/ws"

/-- `WsInfo::to_stmt_url` (taos-ws/src/lib.rs lines 85-92). -/
def WsInfo.toStmtUrl (i : WsInfo) : String :=
  match i.auth with
  | .token t => i.scheme ++ "://" ++ i.addr ++ "/rest/stmt?token=" ++ t
  | .plain _ _ => i.scheme ++ "://" ++ i.addr ++ "/rest/stmt"

/-- `WsInfo::to_tmq_url` (taos-ws/src/lib.rs lines 94-101). -/
def WsInfo.toTmqUrl (i : WsInfo) : String :=
  match i.auth with
  | .token t => i.scheme ++ "://" ++ i.addr ++ "/rest/tmq?token=" ++ t
  | .plain _ _ => i.scheme ++ "://" ++ i.addr ++ "/rest/tmq"

/-- `taos_ws::infra::WsConnReq`: the session-open handshake payload. -/
structure WsConnReq where
  user : Option String
  password : Option String
  db : Option String
deriving DecidableEq, Repr

/-- `WsInfo::to_conn_request` (taos-ws/src/lib.rs lines 103-116). -/
def WsInfo.toConnRequest (i : WsInfo) : WsConnReq :=
  match i.auth with
  | .token _ =>
    { user := some "root", password := some "taosdata", db := i.database }
  | .plain user pass =>
    { user := some user, password := some pass, db := i.database }

/-- Everything after the first occurrence of `c`, or `none` when `c` does
not occur; used to isolate a URL's query component (after `?`). -/
def afterChar (c : Char) : List Char → Option (List Char)
  | [] => none
  | x :: xs => if x = c then some xs else afterChar c xs

/-- Split a character list on a separator character. -/
def splitOnChar (c : Char) : List Char → List (List Char)
  | [] => [[]]
  | x :: xs =>
    if x = c then [] :: splitOnChar c xs
    else
      match splitOnChar c xs with
      | [] => [[x]]
      | y :: ys => (x :: y) :: ys

/-- The list of query parameters of a URL: the `&`-separated pieces after
the first `?`, or `[]` when the URL has no query component. -/
def queryParams (s : String) : List (List Char) :=
  match afterChar '?' s.data with
  | none => []
  | some q => splitOnChar '&' q

/-- The UTF-8 bytes of a string; the column names and rendered timestamps
handled here are ASCII, where each character is one byte. -/
def strBytes (s : String) : List UInt8 :=
  s.data.map (fun c => UInt8.ofNat c.toNat)

/-- Rust's `usize as i32` wrapping cast used by the `as _` conversions in
the result-set accessors. -/
def i32OfNat (n : Nat) : Int :=
  if n % 4294967296 < 2147483648 then ((n % 4294967296 : Nat) : Int)
  else ((n % 4294967296 : Nat) : Int) - 4294967296

/-- Rust's `i32 as usize` cast (sign-extension, i.e. reduction mod 2^64)
used by `ws_get_value_in_block` on its row/column arguments. -/
def usizeOfI32 (i : Int) : Nat :=
  (Int.emod i 18446744073709551616).toNat

/-- Rust's `i32 as u8` truncating cast used by `ws_timestamp_to_rfc3339`
on its precision argument. -/
def u8OfI32 (i : Int) : Nat :=
  (Int.emod i 256).toNat

/-- Modelled from the spec: one column's schema descriptor
(`taos_query::common::Field`, not under src/): name, type tag, and a
32-bit byte width. -/
structure Field where
  name : String
  ty : Ty
  bytes : Nat
deriving DecidableEq, Repr

/-- The 65-byte nul-padded name buffer filled by
`std::ptr::copy_nonoverlapping(f_name.as_ptr(), name.as_mut_ptr(), f_name.len())`
over a zero-initialised `[0 as c_char; 65]` in both `From<&Field>` impls. -/
def padName (s : String) : List UInt8 :=
  strBytes s ++ List.replicate (65 - (strBytes s).length) 0

/-- `WS_FIELD` (taos-ws-sys/src/lib.rs lines 137-143): current (v3) layout,
32-bit width field. -/
structure WS_FIELD where
  name : List UInt8
  ty : Nat
  bytes : Nat
deriving DecidableEq, Repr

/-- `From<&Field> for WS_FIELD` (taos-ws-sys/src/lib.rs lines 168-179):
`bytes: field.bytes()` is stored without conversion. -/
def WS_FIELD.ofField (f : Field) : WS_FIELD :=
  { name := padName f.name, ty := f.ty.toU8, bytes := f.bytes }

/-- `WS_FIELD_V2` (taos-ws-sys/src/lib.rs lines 102-108): legacy (v2)
layout, 16-bit width field. -/
structure WS_FIELD_V2 where
  name : List UInt8
  ty : Nat
  bytes : Nat
deriving DecidableEq, Repr

/-- `From<&Field> for WS_FIELD_V2` (taos-ws-sys/src/lib.rs lines 123-134):
`bytes: field.bytes() as _` truncates the u32 width to u16. -/
def WS_FIELD_V2.ofField (f : Field) : WS_FIELD_V2 :=
  { name := padName f.name, ty := f.ty.toU8, bytes := f.bytes % 65536 }

/-- `WS_FIELD_V2::bytes` accessor (taos-ws-sys/src/lib.rs lines 118-120):
widens the stored u16 back to u32. -/
def WS_FIELD_V2.bytesU32 (f : WS_FIELD_V2) : Nat := f.bytes

/-- `WsError` (taos-ws-sys/src/lib.rs lines 30-35): numeric code
(`taos_error::Code`, modelled as an integer) and a C-string message. The
`source` field only chains the originating error object and plays no role
in any accessor. -/
structure WsError where
  code : Int
  message : String
deriving DecidableEq, Repr

/-- Modelled from the spec: one fetched row block (`taos_query::common::Block`,
not under src/): row count, column count, the raw block bytes exposed by
`as_raw_block().as_bytes()`, and the zero-copy cell accessor
`get_raw_value_unchecked` returning a `(type, byte-length, data-pointer)`
triple (`none` standing for a null pointer). -/
structure Block where
  nrows : Nat
  ncols : Nat
  bytes : List UInt8
  cell : Nat → Nat → Ty × Nat × Option (List UInt8)

/-- Modelled from the spec: the transport result set
(`taos_ws::sync::ResultSet`, not under src/): schema fields, precision,
affected-row count, and the queue of row blocks still to be produced by
`next()`. -/
structure ResultSet where
  fields : List Field
  precision : Precision
  affectedRows : Nat
  blocks : List Block

/-- Modelled from the spec: `ResultSet::num_of_fields` is the schema's
column count. -/
def ResultSet.numOfFields (rs : ResultSet) : Nat := rs.fields.length

/-- Modelled from the spec: `ResultSet::next` pops the next row block, or
yields `none` at end of data. -/
def ResultSet.next (rs : ResultSet) : Option Block × ResultSet :=
  match rs.blocks with
  | [] => (none, rs)
  | b :: bs => (some b, { rs with blocks := bs })

/-- `WsResultSet` (taos-ws-sys/src/lib.rs lines 181-186): the stored
`Result<ResultSet, WsError>`, the currently held block, and the two cached
metadata arrays. -/
structure WsResultSet where
  rs : Except WsError ResultSet
  block : Option Block
  fields : List WS_FIELD
  fieldsV2 : List WS_FIELD_V2

/-- `WsResultSet::new` (taos-ws-sys/src/lib.rs lines 189-196). -/
def WsResultSet.new (rs : Except WsError ResultSet) : WsResultSet :=
  { rs := rs, block := none, fields := [], fieldsV2 := [] }

/-- `WsResultSet::errno` (taos-ws-sys/src/lib.rs lines 197-202). -/
def WsResultSet.errno (s : WsResultSet) : Int :=
  match s.rs with
  | .ok _ => 0
  | .error err => err.code

/-- `WsResultSet::errstr` (taos-ws-sys/src/lib.rs lines 203-209); the
returned C string's contents (`""` for the shared `EMPTY`). -/
def WsResultSet.errstr (s : WsResultSet) : String :=
  match s.rs with
  | .ok _ => ""
  | .error err => err.message

/-- `WsResultSet::precision` (taos-ws-sys/src/lib.rs lines 211-216). -/
def WsResultSet.precision (s : WsResultSet) : Precision :=
  match s.rs with
  | .ok rs => rs.precision
  | .error _ => .millisecond

/-- `WsResultSet::affected_rows` (taos-ws-sys/src/lib.rs lines 218-223). -/
def WsResultSet.affectedRows (s : WsResultSet) : Int :=
  match s.rs with
  | .ok rs => i32OfNat rs.affectedRows
  | .error _ => 0

/-- `WsResultSet::num_of_fields` (taos-ws-sys/src/lib.rs lines 225-230). -/
def WsResultSet.numOfFields (s : WsResultSet) : Int :=
  match s.rs with
  | .ok rs => i32OfNat rs.numOfFields
  | .error _ => 0

/-- `WsResultSet::get_fields` (taos-ws-sys/src/lib.rs lines 232-245):
returns the cache when its length equals the live column count, otherwise
clears and refills it from the schema; `none` models the null pointer
returned in the error state. The new wrapper state is returned alongside. -/
def WsResultSet.getFields (s : WsResultSet) : Option (List WS_FIELD) × WsResultSet :=
  match s.rs with
  | .ok rs =>
    if s.fields.length = rs.numOfFields then (some s.fields, s)
    else
      let rebuilt := rs.fields.map WS_FIELD.ofField
      (some rebuilt, { s with fields := rebuilt })
  | .error _ => (none, s)

/-- `WsResultSet::get_fields_v2` (taos-ws-sys/src/lib.rs lines 246-260). -/
def WsResultSet.getFieldsV2 (s : WsResultSet) : Option (List WS_FIELD_V2) × WsResultSet :=
  match s.rs with
  | .ok rs =>
    if s.fieldsV2.length = rs.numOfFields then (some s.fieldsV2, s)
    else
      let rebuilt := rs.fields.map WS_FIELD_V2.ofField
      (some rebuilt, { s with fieldsV2 := rebuilt })
  | .error _ => (none, s)

/-- Out-parameter effects of `WsResultSet::fetch_block`: the returned code,
whether/what was written through `*ptr`, and whether/what was written
through `*rows` (`none` = left untouched). -/
structure FetchOut where
  ret : Int
  ptrOut : Option (List UInt8)
  rowsOut : Option Int
deriving DecidableEq, Repr

/-- `WsResultSet::fetch_block` (taos-ws-sys/src/lib.rs lines 262-276):
advances the transport result set, stores the produced block (replacing
the previous one), writes the block pointer and row count on success with
data, writes zero rows at end of data, and returns the stored error code
in the error state without touching the out-parameters. -/
def WsResultSet.fetchBlock (s : WsResultSet) : FetchOut × WsResultSet :=
  match s.rs with
  | .ok rs =>
    let step := rs.next
    let s2 : WsResultSet := { s with rs := .ok step.2, block := step.1 }
    match step.1 with
    | some blk =>
      ({ ret := 0, ptrOut := some blk.bytes, rowsOut := some (i32OfNat blk.nrows) }, s2)
    | none =>
      ({ ret := 0, ptrOut := none, rowsOut := some 0 }, s2)
  | .error err => ({ ret := err.code, ptrOut := none, rowsOut := none }, s)

/-- `WsResultSet::get_raw_value` (taos-ws-sys/src/lib.rs lines 278-289):
bounds-checked cell access on the currently held block. -/
def WsResultSet.getRawValue (s : WsResultSet) (row col : Nat) :
    Ty × Nat × Option (List UInt8) :=
  match s.block with
  | some block =>
    if row < block.nrows ∧ col < block.ncols then block.cell row col
    else (.null, 0, none)
  | none => (.null, 0, none)

/-- `taos_ws::sync::WsClient` as far as the boundary layer observes it: an
opaque connected client. -/
inductive WsClient where
  | mk
deriving DecidableEq, Repr

/-- `ws_connect_errno` (taos-ws-sys/src/lib.rs lines 302-309); `none`
models a null handle. -/
def ws_connect_errno : Option (Except WsError WsClient) → Int
  | some (.ok _) => 0
  | some (.error err) => err.code
  | none => 0

/-- `ws_connect_errstr` (taos-ws-sys/src/lib.rs lines 310-318); the
returned C string's contents. -/
def ws_connect_errstr : Option (Except WsError WsClient) → String
  | some (.ok _) => ""
  | some (.error err) => err.message
  | none => ""

/-- `ws_query_errno` (taos-ws-sys/src/lib.rs lines 346-353). -/
def ws_query_errno : Option WsResultSet → Int
  | some rs => rs.errno
  | none => 0

/-- `ws_query_errstr` (taos-ws-sys/src/lib.rs lines 355-362). -/
def ws_query_errstr : Option WsResultSet → String
  | some rs => rs.errstr
  | none => ""

/-- `ws_affected_rows` (taos-ws-sys/src/lib.rs lines 364-371). -/
def ws_affected_rows : Option WsResultSet → Int
  | some rs => rs.affectedRows
  | none => 0

/-- `ws_num_of_fields` (taos-ws-sys/src/lib.rs lines 373-380). -/
def ws_num_of_fields : Option WsResultSet → Int
  | some rs => rs.numOfFields
  | none => 0

/-- `ws_fetch_fields` (taos-ws-sys/src/lib.rs lines 382-389); the second
component is the wrapper state behind the handle after the call. -/
def ws_fetch_fields : Option WsResultSet → Option (List WS_FIELD) × Option WsResultSet
  | some rs =>
    let r := rs.getFields
    (r.1, some r.2)
  | none => (none, none)

/-- `ws_fetch_fields_v2` (taos-ws-sys/src/lib.rs lines 391-398). -/
def ws_fetch_fields_v2 : Option WsResultSet → Option (List WS_FIELD_V2) × Option WsResultSet
  | some rs =>
    let r := rs.getFieldsV2
    (r.1, some r.2)
  | none => (none, none)

/-- `ws_fetch_block` (taos-ws-sys/src/lib.rs lines 399-413): a null handle
writes zero through `*rows` and returns 0 without touching `*ptr`. -/
def ws_fetch_block : Option WsResultSet → FetchOut × Option WsResultSet
  | some rs =>
    let r := rs.fetchBlock
    (r.1, some r.2)
  | none => ({ ret := 0, ptrOut := none, rowsOut := some 0 }, none)

/-- Out-parameter effects of `ws_get_value_in_block`: the byte written
through `*ty`, the length written through `*len`, and the returned data
pointer. -/
structure CellOut where
  tyOut : Nat
  lenOut : Nat
  ptr : Option (List UInt8)
deriving DecidableEq, Repr

/-- `ws_get_value_in_block` (taos-ws-sys/src/lib.rs lines 445-466): casts
the i32 coordinates to usize, delegates to `get_raw_value`, and on a null
handle writes the null type tag and zero length and returns null. -/
def ws_get_value_in_block (rs : Option WsResultSet) (row col : Int) : CellOut :=
  match rs with
  | some s =>
    let value := s.getRawValue (usizeOfI32 row) (usizeOfI32 col)
    { tyOut := value.1.toU8, lenOut := value.2.1, ptr := value.2.2 }
  | none => { tyOut := Ty.null.toU8, lenOut := 0, ptr := none }

/-- Modelled from the spec: Hinnant's civil-from-days calendar algorithm,
standing in for the `chrono` date computation behind
`Timestamp::to_datetime_with_tz` (not under src/): days since the epoch to
(year, month, day). -/
def civilFromDays (z0 : Int) : Int × Nat × Nat :=
  let z := z0 + 719468
  let era := Int.fdiv z 146097
  let doe := (z - era * 146097).toNat
  let yoe := (doe - doe / 1460 + doe / 36524 - doe / 146096) / 365
  let y : Int := (yoe : Int) + era * 400
  let doy := doe - (365 * yoe + yoe / 4 - yoe / 100)
  let mp := (5 * doy + 2) / 153
  let d := doy - (153 * mp + 2) / 5 + 1
  let m := if mp < 10 then mp + 3 else mp - 9
  (if m ≤ 2 then y + 1 else y, m, d)

/-- Zero-padded decimal rendering to a fixed width. -/
def padNum (w n : Nat) : String :=
  let s := toString n
  String.mk (List.replicate (w - s.length) '0') ++ s

/-- Four-digit year rendering with a leading minus sign for negative
years. -/
def padYear (y : Int) : String :=
  if y < 0 then "-" ++ padNum 4 (-y).toNat else padNum 4 y.toNat

/-- Modelled from the spec: ticks per second for each precision. -/
def Precision.scale : Precision → Nat
  | .millisecond => 1000
  | .microsecond => 1000000
  | .nanosecond => 1000000000

/-- Modelled from the spec: fractional-second digits requested by
`Precision::to_seconds_format` (not under src/): milliseconds render 3,
microseconds 6, nanoseconds 9. -/
def Precision.fracDigits : Precision → Nat
  | .millisecond => 3
  | .microsecond => 6
  | .nanosecond => 9

/-- Modelled from the spec: the RFC-3339 UTC rendering performed by
`Timestamp::new(raw, precision).to_datetime_with_tz().to_rfc3339_opts(precision.to_seconds_format(), use_z)`
(not under src/): `YYYY-MM-DDTHH:MM:SS.fff...` followed by `Z` when the
zone letter is requested and the numeric zero offset otherwise. -/
def renderRfc3339 (raw : Int) (prec : Precision) (useZ : Bool) : String :=
  let scale : Int := prec.scale
  let secs := Int.fdiv raw scale
  let frac := (Int.fmod raw scale).toNat
  let days := Int.fdiv secs 86400
  let sod := (Int.fmod secs 86400).toNat
  let ymd := civilFromDays days
  padYear ymd.1 ++ "-" ++ padNum 2 ymd.2.1 ++ "-" ++ padNum 2 ymd.2.2
    ++ "T" ++ padNum 2 (sod / 3600) ++ ":" ++ padNum 2 (sod % 3600 / 60)
    ++ ":" ++ padNum 2 (sod % 60)
    ++ "." ++ padNum prec.fracDigits frac
    ++ (if useZ then "Z" else "+00:00")

/-- The effect of `std::ptr::copy_nonoverlapping(s.as_ptr(), dest, s.len())`
on a destination buffer: the source bytes overwrite the front, the rest of
the buffer is untouched. -/
def writeBytes (dest src : List UInt8) : List UInt8 :=
  src ++ dest.drop src.length

/-- `ws_timestamp_to_rfc3339` (taos-ws-sys/src/lib.rs lines 472-488):
decodes the precision from the C integer, renders the timestamp, and
copies exactly the rendered bytes into the caller-supplied buffer. -/
def ws_timestamp_to_rfc3339 (dest : List UInt8) (raw : Int) (precision : Int)
    (useZ : Bool) : List UInt8 :=
  let prec := Precision.fromU8 (u8OfI32 precision)
  writeBytes dest (strBytes (renderRfc3339 raw prec useZ))

theorem afterChar_append_of_not_mem {c : Char} {a : List Char} (h : c ∉ a) (b : List Char) :
    afterChar c (a ++ b) = afterChar c b := by
  induction a with
  | nil => rfl
  | cons x xs ih =>
    simp only [List.cons_append, afterChar]
    rw [if_neg fun hx => h (List.mem_cons.mpr (Or.inl hx.symm))]
    exact ih fun hm => h (List.mem_cons_of_mem _ hm)

theorem afterChar_of_not_mem {c : Char} {a : List Char} (h : c ∉ a) :
    afterChar c a = none := by
  have := afterChar_append_of_not_mem h []
  simpa using this

theorem splitOnChar_of_not_mem {c : Char} {l : List Char} (h : c ∉ l) :
    splitOnChar c l = [l] := by
  induction l with
  | nil => rfl
  | cons x xs ih =>
    simp only [splitOnChar]
    rw [if_neg fun hx => h (List.mem_cons.mpr (Or.inl hx.symm)),
        ih fun hm => h (List.mem_cons_of_mem _ hm)]

theorem queryParams_eq_some {s : String} {q : List Char}
    (h : afterChar '?' s.data = some q) : queryParams s = splitOnChar '&' q := by
  unfold queryParams
  rw [h]

theorem queryParams_eq_none {s : String} (h : afterChar '?' s.data = none) :
    queryParams s = [] := by
  unfold queryParams
  rw [h]

theorem queryParams_token_url (S A L0 T : String) (hS : '?' ∉ S.data)
    (hA : '?' ∉ A.data) (hL0 : '?' ∉ L0.data) (hT2 : '&' ∉ T.data) :
    queryParams (S ++ "://" ++ A ++ (L0 ++ "?token=") ++ T) = ["token=".data ++ T.data] := by
  have hd : (S ++ "://" ++ A ++ (L0 ++ "?token=") ++ T).data
      = S.data ++ ("://".data ++ (A.data ++ (L0.data ++ ("?token=".data ++ T.data)))) := by
    simp only [String.data_append, List.append_assoc]
  have ha : afterChar '?' (S ++ "://" ++ A ++ (L0 ++ "?token=") ++ T).data
      = some ("token=".data ++ T.data) := by
    rw [hd, afterChar_append_of_not_mem hS, afterChar_append_of_not_mem (by decide),
        afterChar_append_of_not_mem hA, afterChar_append_of_not_mem hL0]
    show afterChar '?' ('?' :: ("token=".data ++ T.data)) = some ("token=".data ++ T.data)
    simp [afterChar]
  rw [queryParams_eq_some ha, splitOnChar_of_not_mem (by
    intro hm
    rcases List.mem_append.mp hm with hm | hm
    · revert hm; decide
    · exact hT2 hm)]

theorem queryParams_plain_url (S A L0 : String) (hS : '?' ∉ S.data)
    (hA : '?' ∉ A.data) (hL0 : '?' ∉ L0.data) :
    queryParams (S ++ "://" ++ A ++ L0) = [] := by
  have hd : (S ++ "://" ++ A ++ L0).data
      = S.data ++ ("://".data ++ (A.data ++ L0.data)) := by
    simp only [String.data_append, List.append_assoc]
  refine queryParams_eq_none ?_
  rw [hd, afterChar_append_of_not_mem hS, afterChar_append_of_not_mem (by decide),
      afterChar_append_of_not_mem hA]
  exact afterChar_of_not_mem hL0

theorem fromDsn_of_scheme {dsn : Dsn} {s : String} (h : deriveScheme dsn = .ok s) :
    ∃ i, WsInfo.fromDsn dsn = .ok i ∧ i.scheme = s := by
  unfold WsInfo.fromDsn
  rw [h]
  cases paramGet dsn.params "token"
  · exact ⟨_, rfl, rfl⟩
  · exact ⟨_, rfl, rfl⟩

theorem fromDsn_of_error {dsn : Dsn} {e : DsnError} (h : deriveScheme dsn = .error e) :
    WsInfo.fromDsn dsn = .error e := by
  unfold WsInfo.fromDsn
  rw [h]
  rfl

/-- C1: `WsInfo::from_dsn` derives the transport scheme exactly by the
table — driver `ws`/`http` (any sub-protocol) gives `ws`; `wss`/`https`
gives `wss`; driver `taos` with sub-protocol `ws`/`http` gives `ws` and
with `wss`/`https` gives `wss`; any other driver/sub-protocol pair fails
with an `InvalidDriver` error carrying the descriptor's canonical string
form. -/
theorem c1_fromDsn_scheme_table (dsn : Dsn) :
    (dsn.driver = "ws" ∨ dsn.driver = "http" →
      ∃ i, WsInfo.fromDsn dsn = .ok i ∧ i.scheme = "ws") ∧
    (dsn.driver = "wss" ∨ dsn.driver = "https" →
      ∃ i, WsInfo.fromDsn dsn = .ok i ∧ i.scheme = "wss") ∧
    (dsn.driver = "taos" → dsn.protocol = some "ws" ∨ dsn.protocol = some "http" →
      ∃ i, WsInfo.fromDsn dsn = .ok i ∧ i.scheme = "ws") ∧
    (dsn.driver = "taos" → dsn.protocol = some "wss" ∨ dsn.protocol = some "https" →
      ∃ i, WsInfo.fromDsn dsn = .ok i ∧ i.scheme = "wss") ∧
    (dsn.driver ≠ "ws" → dsn.driver ≠ "http" → dsn.driver ≠ "wss" → dsn.driver ≠ "https" →
      (dsn.driver = "taos" →
        dsn.protocol ≠ some "ws" ∧ dsn.protocol ≠ some "http" ∧
        dsn.protocol ≠ some "wss" ∧ dsn.protocol ≠ some "https") →
      WsInfo.fromDsn dsn = .error (.invalidDriver dsn.toStr)) := by
  refine ⟨?_, ?_, ?_, ?_, ?_⟩
  · intro h
    refine fromDsn_of_scheme ?_
    unfold deriveScheme
    rw [if_pos h]
  · intro h
    refine fromDsn_of_scheme ?_
    have h1 : ¬(dsn.driver = "ws" ∨ dsn.driver = "http") := by
      rcases h with h | h <;> rw [h] <;> decide
    unfold deriveScheme
    rw [if_neg h1, if_pos h]
  · intro ht hp
    refine fromDsn_of_scheme ?_
    have h1 : ¬(dsn.driver = "ws" ∨ dsn.driver = "http") := by rw [ht]; decide
    have h2 : ¬(dsn.driver = "wss" ∨ dsn.driver = "https") := by rw [ht]; decide
    unfold deriveScheme
    rw [if_neg h1, if_neg h2, if_pos ⟨ht, hp⟩]
  · intro ht hp
    refine fromDsn_of_scheme ?_
    have h1 : ¬(dsn.driver = "ws" ∨ dsn.driver = "http") := by rw [ht]; decide
    have h2 : ¬(dsn.driver = "wss" ∨ dsn.driver = "https") := by rw [ht]; decide
    have h3 : ¬(dsn.driver = "taos" ∧ (dsn.protocol = some "ws" ∨ dsn.protocol = some "http")) := by
      rintro ⟨-, hq⟩
      rcases hp with hp | hp <;> rw [hp] at hq <;> revert hq <;> decide
    unfold deriveScheme
    rw [if_neg h1, if_neg h2, if_neg h3, if_pos ⟨ht, hp⟩]
  · intro h1 h2 h3 h4 h5
    refine fromDsn_of_error ?_
    have p1 : ¬(dsn.driver = "ws" ∨ dsn.driver = "http") := by
      rintro (h | h)
      exacts [h1 h, h2 h]
    have p2 : ¬(dsn.driver = "wss" ∨ dsn.driver = "https") := by
      rintro (h | h)
      exacts [h3 h, h4 h]
    have p3 : ¬(dsn.driver = "taos" ∧ (dsn.protocol = some "ws" ∨ dsn.protocol = some "http")) := by
      rintro ⟨ht, hp⟩
      obtain ⟨a, b, -, -⟩ := h5 ht
      rcases hp with hp | hp
      exacts [a hp, b hp]
    have p4 : ¬(dsn.driver = "taos" ∧ (dsn.protocol = some "wss" ∨ dsn.protocol = some "https")) := by
      rintro ⟨ht, hp⟩
      obtain ⟨-, -, a, b⟩ := h5 ht
      rcases hp with hp | hp
      exacts [a hp, b hp]
    unfold deriveScheme
    rw [if_neg p1, if_neg p2, if_neg p3, if_neg p4]

/-- Witness for C1 at the concrete descriptor `foo://`: resolution fails
with `InvalidDriver` carrying the canonical string form. -/
theorem c1_witness :
    WsInfo.fromDsn ⟨"foo", none, none, none, [], [], none⟩
      = .error (.invalidDriver "foo://") :=
  (c1_fromDsn_scheme_table ⟨"foo", none, none, none, [], [], none⟩).2.2.2.2
    (by decide) (by decide) (by decide) (by decide) (by decide)

/-- C2: in token mode each endpoint-URL builder yields exactly
`{scheme}://{addr}/rest/{ws|stmt|tmq}?token={token}` — so the query
component consists of exactly the one parameter `token=T`, and no
username or password occurs in the build (token mode carries none, and the
plain-mode URLs shown are independent of the credentials); in
plain-credential mode the URL has no query component at all, hence no
token parameter. -/
theorem c2_endpoint_urls (S A T U P : String) (db : Option String)
    (hS : '?' ∉ S.data) (hA : '?' ∉ A.data) (hT : '?' ∉ T.data) (hT2 : '&' ∉ T.data) :
    WsInfo.toQueryUrl ⟨S, A, .token T, db⟩ = S ++ "://" ++ A ++ "/rest/ws?token=" ++ T ∧
    WsInfo.toStmtUrl ⟨S, A, .token T, db⟩ = S ++ "://" ++ A ++ "/rest/stmt?token=" ++ T ∧
    WsInfo.toTmqUrl ⟨S, A, .token T, db⟩ = S ++ "://" ++ A ++ "/rest/tmq?token=" ++ T ∧
    queryParams (WsInfo.toQueryUrl ⟨S, A, .token T, db⟩) = ["token=".data ++ T.data] ∧
    queryParams (WsInfo.toStmtUrl ⟨S, A, .token T, db⟩) = ["token=".data ++ T.data] ∧
    queryParams (WsInfo.toTmqUrl ⟨S, A, .token T, db⟩) = ["token=".data ++ T.data] ∧
    WsInfo.toQueryUrl ⟨S, A, .plain U P, db⟩ = S ++ "://" ++ A ++ "/rest/ws" ∧
    WsInfo.toStmtUrl ⟨S, A, .plain U P, db⟩ = S ++ "://" ++ A ++ "/rest/stmt" ∧
    WsInfo.toTmqUrl ⟨S, A, .plain U P, db⟩ = S ++ "://" ++ A ++ "/rest/tmq" ∧
    queryParams (WsInfo.toQueryUrl ⟨S, A, .plain U P, db⟩) = [] ∧
    queryParams (WsInfo.toStmtUrl ⟨S, A, .plain U P, db⟩) = [] ∧
    queryParams (WsInfo.toTmqUrl ⟨S, A, .plain U P, db⟩) = [] := by
  refine ⟨rfl, rfl, rfl, ?_, ?_, ?_, rfl, rfl, rfl, ?_, ?_, ?_⟩
  · show queryParams (S ++ "://" ++ A ++ "/rest/ws?token=" ++ T) = _
    rw [show ("/rest/ws?token=" : String) = "/rest/ws" ++ "?token=" from by decide]
    exact queryParams_token_url S A "/rest/ws" T hS hA (by decide) hT2
  · show queryParams (S ++ "://" ++ A ++ "/rest/stmt?token=" ++ T) = _
    rw [show ("/rest/stmt?token=" : String) = "/rest/stmt" ++ "?token=" from by decide]
    exact queryParams_token_url S A "/rest/stmt" T hS hA (by decide) hT2
  · show queryParams (S ++ "://" ++ A ++ "/rest/tmq?token=" ++ T) = _
    rw [show ("/rest/tmq?token=" : String) = "/rest/tmq" ++ "?token=" from by decide]
    exact queryParams_token_url S A "/rest/tmq" T hS hA (by decide) hT2
  · exact queryParams_plain_url S A "/rest/ws" hS hA (by decide)
  · exact queryParams_plain_url S A "/rest/stmt" hS hA (by decide)
  · exact queryParams_plain_url S A "/rest/tmq" hS hA (by decide)

/-- Witness for C2 at a concrete token-mode info: the query endpoint's
parameter list is exactly the one `token=` entry. -/
theorem c2_witness :
    queryParams (WsInfo.toQueryUrl ⟨"ws", "localhost:6041", .token "tok", none⟩)
      = ["token=".data ++ "tok".data] :=
  (c2_endpoint_urls "ws" "localhost:6041" "tok" "root" "taosdata" none
    (by decide) (by decide) (by decide) (by decide)).2.2.2.1

/-- C3: in token mode the session-open handshake request carries the fixed
default credentials `root`/`taosdata` and is independent of the token
value (the token is carried only in the endpoint URLs, C2); in
plain-credential mode it carries the resolved username and password. -/
theorem c3_conn_request (S A U P T : String) (db : Option String) :
    WsInfo.toConnRequest ⟨S, A, .token T, db⟩
      = { user := some "root", password := some "taosdata", db := db } ∧
    (∀ T2, WsInfo.toConnRequest ⟨S, A, .token T, db⟩
      = WsInfo.toConnRequest ⟨S, A, .token T2, db⟩) ∧
    WsInfo.toConnRequest ⟨S, A, .plain U P, db⟩
      = { user := some U, password := some P, db := db } :=
  ⟨rfl, fun _ => rfl, rfl⟩

/-- C4: on a wrapper holding a stored error every accessor returns the
stored value or its inert default (`errno` the stored code, `errstr` the
stored message, `affected_rows`/`num_of_fields` zero, `precision`
millisecond, both metadata accessors a null pointer, and `fetch_block` the
stored error code with the out-parameters and the wrapper state
untouched); on a wrapper holding a success, `errno` is zero and `errstr`
the empty string. -/
theorem c4_errored_accessors (e : WsError) (blk : Option Block)
    (f : List WS_FIELD) (fv2 : List WS_FIELD_V2) (rsOk : ResultSet) :
    WsResultSet.errno ⟨.error e, blk, f, fv2⟩ = e.code ∧
    WsResultSet.errstr ⟨.error e, blk, f, fv2⟩ = e.message ∧
    WsResultSet.affectedRows ⟨.error e, blk, f, fv2⟩ = 0 ∧
    WsResultSet.numOfFields ⟨.error e, blk, f, fv2⟩ = 0 ∧
    WsResultSet.precision ⟨.error e, blk, f, fv2⟩ = .millisecond ∧
    (WsResultSet.getFields ⟨.error e, blk, f, fv2⟩).1 = none ∧
    (WsResultSet.getFieldsV2 ⟨.error e, blk, f, fv2⟩).1 = none ∧
    (WsResultSet.fetchBlock ⟨.error e, blk, f, fv2⟩).1
      = { ret := e.code, ptrOut := none, rowsOut := none } ∧
    (WsResultSet.fetchBlock ⟨.error e, blk, f, fv2⟩).2 = ⟨.error e, blk, f, fv2⟩ ∧
    WsResultSet.errno ⟨.ok rsOk, blk, f, fv2⟩ = 0 ∧
    WsResultSet.errstr ⟨.ok rsOk, blk, f, fv2⟩ = "" :=
  ⟨rfl, rfl, rfl, rfl, rfl, rfl, rfl, rfl, rfl, rfl, rfl⟩

/-- C5: cell access bounds-checks against the held block — out-of-range
coordinates (or no held block) give `(NullType, 0, null)` without touching
the block's accessor, in-range coordinates delegate to the zero-copy
accessor, and the C entry point `ws_get_value_in_block` delegates to
`get_raw_value` on the usize-cast coordinates. -/
theorem c5_cell_bounds (rsf : Except WsError ResultSet) (b : Block)
    (f : List WS_FIELD) (fv2 : List WS_FIELD_V2) (row col : Nat) :
    (b.nrows ≤ row ∨ b.ncols ≤ col →
      WsResultSet.getRawValue ⟨rsf, some b, f, fv2⟩ row col = (Ty.null, 0, none)) ∧
    (row < b.nrows → col < b.ncols →
      WsResultSet.getRawValue ⟨rsf, some b, f, fv2⟩ row col = b.cell row col) ∧
    WsResultSet.getRawValue ⟨rsf, none, f, fv2⟩ row col = (Ty.null, 0, none) ∧
    (∀ ri ci : Int,
      ws_get_value_in_block (some ⟨rsf, some b, f, fv2⟩) ri ci
        = { tyOut :=
              (WsResultSet.getRawValue ⟨rsf, some b, f, fv2⟩
                (usizeOfI32 ri) (usizeOfI32 ci)).1.toU8,
            lenOut :=
              (WsResultSet.getRawValue ⟨rsf, some b, f, fv2⟩
                (usizeOfI32 ri) (usizeOfI32 ci)).2.1,
            ptr :=
              (WsResultSet.getRawValue ⟨rsf, some b, f, fv2⟩
                (usizeOfI32 ri) (usizeOfI32 ci)).2.2 }) := by
  refine ⟨?_, ?_, rfl, fun ri ci => rfl⟩
  · intro h
    show (if row < b.nrows ∧ col < b.ncols then b.cell row col
          else (Ty.null, 0, none)) = (Ty.null, 0, none)
    rw [if_neg (by rcases h with h | h <;> omega)]
  · intro h1 h2
    show (if row < b.nrows ∧ col < b.ncols then b.cell row col
          else (Ty.null, 0, none)) = b.cell row col
    rw [if_pos ⟨h1, h2⟩]

/-- Witness for C5 at a concrete one-cell block: row 5 is out of range and
yields the inert null triple. -/
theorem c5_witness :
    WsResultSet.getRawValue
      ⟨.ok ⟨[], .millisecond, 0, []⟩,
       some ⟨1, 1, [], fun _ _ => (Ty.int, 4, some [7])⟩, [], []⟩ 5 0
      = (Ty.null, 0, none) :=
  (c5_cell_bounds (.ok ⟨[], .millisecond, 0, []⟩)
    ⟨1, 1, [], fun _ _ => (Ty.int, 4, some [7])⟩ [] [] 5 0).1 (Or.inl (by decide))

/-- C6: every foreign-boundary accessor treats a null handle as absent and
returns its defined inert value — zero codes, empty strings, zero counts,
null pointers — and `ws_fetch_block` writes zero through the row-count
out-parameter and returns success. -/
theorem c6_null_handles :
    ws_connect_errno none = 0 ∧
    ws_connect_errstr none = "" ∧
    ws_query_errno none = 0 ∧
    ws_query_errstr none = "" ∧
    ws_affected_rows none = 0 ∧
    ws_num_of_fields none = 0 ∧
    (ws_fetch_fields none).1 = none ∧
    (ws_fetch_fields_v2 none).1 = none ∧
    (ws_fetch_block none).1 = { ret := 0, ptrOut := none, rowsOut := some 0 } :=
  ⟨rfl, rfl, rfl, rfl, rfl, rfl, rfl, rfl, rfl⟩

theorem i32OfNat_of_lt {n : Nat} (h : n < 2147483648) : i32OfNat n = n := by
  unfold i32OfNat
  rw [Nat.mod_eq_of_lt (by omega), if_pos (by omega)]

theorem getFields_ok (rs : ResultSet) (blk : Option Block)
    (f : List WS_FIELD) (fv2 : List WS_FIELD_V2) :
    WsResultSet.getFields ⟨.ok rs, blk, f, fv2⟩
      = if List.length f = rs.numOfFields then (some f, ⟨.ok rs, blk, f, fv2⟩)
        else (some (rs.fields.map WS_FIELD.ofField),
              ⟨.ok rs, blk, rs.fields.map WS_FIELD.ofField, fv2⟩) := rfl

theorem getFieldsV2_ok (rs : ResultSet) (blk : Option Block)
    (f : List WS_FIELD) (fv2 : List WS_FIELD_V2) :
    WsResultSet.getFieldsV2 ⟨.ok rs, blk, f, fv2⟩
      = if List.length fv2 = rs.numOfFields then (some fv2, ⟨.ok rs, blk, f, fv2⟩)
        else (some (rs.fields.map WS_FIELD_V2.ofField),
              ⟨.ok rs, blk, f, rs.fields.map WS_FIELD_V2.ofField⟩) := rfl

/-- C7: on a freshly constructed successful wrapper over a schema of N
columns, `num_of_fields` returns N and both layout accessors return
arrays of length N obtained by converting the schema fields, so their
name and type columns agree pairwise with the schema (and with each
other); and whenever a cached array's length already equals the live
column count the accessor returns the cache unchanged (no rebuild). -/
theorem c7_fields_layouts (rs : ResultSet) (hN : rs.fields.length < 2147483648) :
    WsResultSet.numOfFields (WsResultSet.new (.ok rs)) = (rs.fields.length : Int) ∧
    (WsResultSet.getFields (WsResultSet.new (.ok rs))).1
      = some (rs.fields.map WS_FIELD.ofField) ∧
    (WsResultSet.getFieldsV2 (WsResultSet.new (.ok rs))).1
      = some (rs.fields.map WS_FIELD_V2.ofField) ∧
    (rs.fields.map WS_FIELD.ofField).length = rs.fields.length ∧
    (rs.fields.map WS_FIELD_V2.ofField).length = rs.fields.length ∧
    (rs.fields.map WS_FIELD.ofField).map WS_FIELD.name
      = rs.fields.map (fun fd => padName fd.name) ∧
    (rs.fields.map WS_FIELD.ofField).map WS_FIELD.ty
      = rs.fields.map (fun fd => fd.ty.toU8) ∧
    (rs.fields.map WS_FIELD_V2.ofField).map WS_FIELD_V2.name
      = rs.fields.map (fun fd => padName fd.name) ∧
    (rs.fields.map WS_FIELD_V2.ofField).map WS_FIELD_V2.ty
      = rs.fields.map (fun fd => fd.ty.toU8) ∧
    (∀ blk f fv2, List.length f = rs.numOfFields →
      WsResultSet.getFields ⟨.ok rs, blk, f, fv2⟩ = (some f, ⟨.ok rs, blk, f, fv2⟩)) ∧
    (∀ blk f fv2, List.length fv2 = rs.numOfFields →
      WsResultSet.getFieldsV2 ⟨.ok rs, blk, f, fv2⟩ = (some fv2, ⟨.ok rs, blk, f, fv2⟩)) := by
  refine ⟨i32OfNat_of_lt hN, ?_, ?_, List.length_map _ _, List.length_map _ _,
    by simp only [List.map_map]; rfl, by simp only [List.map_map]; rfl,
    by simp only [List.map_map]; rfl, by simp only [List.map_map]; rfl,
    ?_, ?_⟩
  · rw [show WsResultSet.new (.ok rs) = (⟨.ok rs, none, [], []⟩ : WsResultSet) from rfl,
        getFields_ok]
    by_cases h0 : List.length ([] : List WS_FIELD) = rs.numOfFields
    · have hf : rs.fields = [] := by
        have hl : rs.fields.length = 0 := by
          simpa [ResultSet.numOfFields] using h0.symm
        exact List.length_eq_zero.mp hl
      rw [if_pos h0, hf]
      rfl
    · rw [if_neg h0]
  · rw [show WsResultSet.new (.ok rs) = (⟨.ok rs, none, [], []⟩ : WsResultSet) from rfl,
        getFieldsV2_ok]
    by_cases h0 : List.length ([] : List WS_FIELD_V2) = rs.numOfFields
    · have hf : rs.fields = [] := by
        have hl : rs.fields.length = 0 := by
          simpa [ResultSet.numOfFields] using h0.symm
        exact List.length_eq_zero.mp hl
      rw [if_pos h0, hf]
      rfl
    · rw [if_neg h0]
  · intro blk f fv2 hf
    rw [getFields_ok, if_pos hf]
  · intro blk f fv2 hf
    rw [getFieldsV2_ok, if_pos hf]

/-- Witness for C7 at a concrete one-column result set. -/
theorem c7_witness :
    WsResultSet.numOfFields
      (WsResultSet.new (.ok ⟨[⟨"a", Ty.int, 4⟩], .millisecond, 0, []⟩)) = 1 :=
  (c7_fields_layouts ⟨[⟨"a", Ty.int, 4⟩], .millisecond, 0, []⟩ (by decide)).1

/-- C9: the legacy-layout width is the schema byte width reduced modulo
2^16 while the current-layout width is exact, so the two layouts disagree
on any field at least 65536 bytes wide. -/
theorem c9_width_truncation (fd : Field) :
    (WS_FIELD_V2.ofField fd).bytes = fd.bytes % 65536 ∧
    (WS_FIELD.ofField fd).bytes = fd.bytes ∧
    (65536 ≤ fd.bytes →
      (WS_FIELD_V2.ofField fd).bytesU32 ≠ (WS_FIELD.ofField fd).bytes) := by
  refine ⟨rfl, rfl, fun h => ?_⟩
  have hlt : fd.bytes % 65536 < 65536 := Nat.mod_lt _ (by omega)
  show fd.bytes % 65536 ≠ fd.bytes
  omega

/-- Witness for C9 at a 70000-byte-wide field: the two layouts report
different widths. -/
theorem c9_witness :
    (WS_FIELD_V2.ofField ⟨"b", Ty.varChar, 70000⟩).bytesU32
      ≠ (WS_FIELD.ofField ⟨"b", Ty.varChar, 70000⟩).bytes :=
  (c9_width_truncation ⟨"b", Ty.varChar, 70000⟩).2.2 (by decide)

/-- C8: rendering raw value 0 at millisecond precision with the zone
letter writes the epoch instant `1970-01-01T00:00:00.000Z` — an RFC-3339
string with a trailing `Z` — into the front of the caller's buffer. -/
theorem c8_epoch_rfc3339 (dest : List UInt8) (h : 24 ≤ dest.length) :
    renderRfc3339 0 .millisecond true = "1970-01-01T00:00:00.000Z" ∧
    ws_timestamp_to_rfc3339 dest 0 0 true
      = strBytes "1970-01-01T00:00:00.000Z" ++ dest.drop 24 ∧
    (ws_timestamp_to_rfc3339 dest 0 0 true).take 24
      = strBytes "1970-01-01T00:00:00.000Z" ∧
    ("1970-01-01T00:00:00.000Z" : String).data.getLast? = some 'Z' := by
  have hr : renderRfc3339 0 .millisecond true = "1970-01-01T00:00:00.000Z" := by decide
  have h2 : ws_timestamp_to_rfc3339 dest 0 0 true
      = strBytes "1970-01-01T00:00:00.000Z" ++ dest.drop 24 := by
    show writeBytes dest (strBytes (renderRfc3339 0 (Precision.fromU8 (u8OfI32 0)) true)) = _
    rw [show Precision.fromU8 (u8OfI32 0) = Precision.millisecond from rfl, hr]
    show strBytes "1970-01-01T00:00:00.000Z"
        ++ dest.drop (strBytes "1970-01-01T00:00:00.000Z").length = _
    rw [show (strBytes "1970-01-01T00:00:00.000Z").length = 24 from by decide]
  refine ⟨hr, h2, ?_, by decide⟩
  rw [h2, show (24 : Nat) = (strBytes "1970-01-01T00:00:00.000Z").length from by decide]
  exact List.take_left _ _

/-- Witness for C8 on a concrete 32-byte buffer pre-filled with `A`s. -/
theorem c8_witness :
    ws_timestamp_to_rfc3339 (List.replicate 32 65) 0 0 true
      = strBytes "1970-01-01T00:00:00.000Z" ++ (List.replicate 32 (65 : UInt8)).drop 24 :=
  (c8_epoch_rfc3339 (List.replicate 32 65) (by decide)).2.1

/-- C10: `ws_timestamp_to_rfc3339` writes exactly the rendered string's
bytes at the front of the buffer and leaves every byte past that length
unchanged (in particular the byte right after the text, so no nul
terminator is written); the buffer keeps its length. -/
theorem c10_write_frame (dest : List UInt8) (raw precision : Int) (useZ : Bool)
    (h : (strBytes (renderRfc3339 raw (Precision.fromU8 (u8OfI32 precision)) useZ)).length
      ≤ dest.length) :
    (ws_timestamp_to_rfc3339 dest raw precision useZ).take
        (strBytes (renderRfc3339 raw (Precision.fromU8 (u8OfI32 precision)) useZ)).length
      = strBytes (renderRfc3339 raw (Precision.fromU8 (u8OfI32 precision)) useZ) ∧
    (ws_timestamp_to_rfc3339 dest raw precision useZ).drop
        (strBytes (renderRfc3339 raw (Precision.fromU8 (u8OfI32 precision)) useZ)).length
      = dest.drop
        (strBytes (renderRfc3339 raw (Precision.fromU8 (u8OfI32 precision)) useZ)).length ∧
    (ws_timestamp_to_rfc3339 dest raw precision useZ).length = dest.length := by
  refine ⟨List.take_left _ _, List.drop_left _ _, ?_⟩
  show (strBytes (renderRfc3339 raw (Precision.fromU8 (u8OfI32 precision)) useZ)
      ++ dest.drop (strBytes (renderRfc3339 raw (Precision.fromU8 (u8OfI32 precision)) useZ)).length).length = dest.length
  rw [List.length_append, List.length_drop]
  omega

/-- Witness for C10 on a concrete 32-byte buffer of `A`s: the tail beyond
the 24 rendered bytes is untouched. -/
theorem c10_witness :
    (ws_timestamp_to_rfc3339 (List.replicate 32 65) 0 0 true).drop
        (strBytes (renderRfc3339 0 (Precision.fromU8 (u8OfI32 0)) true)).length
      = (List.replicate 32 (65 : UInt8)).drop
        (strBytes (renderRfc3339 0 (Precision.fromU8 (u8OfI32 0)) true)).length :=
  (c10_write_frame (List.replicate 32 65) 0 0 true (by decide)).2.1

end Taos
